import Mathlib

/-!
Shallow embedding of the KPI-aggregation core of the security-metrics
dashboard (src/src/components/DashboardVisualization.tsx).

Modelling decisions:
* JavaScript numbers are modelled by `JSNum`: either NaN, ±Infinity, or an
  exact rational.  Division is total in JS (`0/0 = NaN`, `x/0 = ±Infinity`),
  which `jsDiv` reproduces; all other arithmetic in the aggregators happens
  on finite values.
* Date strings are abstracted to their epoch-millisecond timestamps:
  a field of type `Option Int` is `none` when the CSV cell is absent/blank
  (JS falsy) and `some t` when it holds a date whose `getTime()` is `t`.
* `RecommendedTimeframe` is `Option ℚ`: `none` models an absent/null cell
  (Papa parse `dynamicTyping` yields `null`/`undefined` there).
* JS objects used as counters (`acc[key] = (acc[key] || 0) + 1`) are
  modelled as association lists in key-insertion order (`bumpCount`),
  matching `Object.keys` enumeration order.
* `[...new Set(xs)].length` is modelled as `xs.dedup.length` (the number of
  distinct elements; only the length is consumed).
-/

inductive JSNum where
  | nan : JSNum
  | posInf : JSNum
  | negInf : JSNum
  | num : ℚ → JSNum
deriving DecidableEq, Repr

/-- JS division `a / b` on finite operands (total, IEEE-style). -/
def jsDiv (a b : ℚ) : JSNum :=
  if b = 0 then
    if a = 0 then .nan else if 0 < a then .posInf else .negInf
  else .num (a / b)

/-- Multiplication by the literal `100`, as in `(x / y) * 100`. -/
def jsMul100 : JSNum → JSNum
  | .nan => .nan
  | .posInf => .posInf
  | .negInf => .negInf
  | .num q => .num (q * 100)

/-- JS `+` on numbers (NaN-propagating). -/
def jsAdd : JSNum → JSNum → JSNum
  | .nan, _ => .nan
  | _, .nan => .nan
  | .posInf, .negInf => .nan
  | .negInf, .posInf => .nan
  | .posInf, _ => .posInf
  | _, .posInf => .posInf
  | .negInf, _ => .negInf
  | _, .negInf => .negInf
  | .num a, .num b => .num (a + b)

def jsSum (l : List JSNum) : JSNum := l.foldr jsAdd (.num 0)

/-- JS `<` (false whenever either operand is NaN). -/
def jsLt : JSNum → JSNum → Bool
  | .nan, _ => false
  | _, .nan => false
  | .negInf, .negInf => false
  | .negInf, _ => true
  | _, .negInf => false
  | .posInf, _ => false
  | .num _, .posInf => true
  | .num a, .num b => decide (a < b)

/-- JS `<=` (false whenever either operand is NaN). -/
def jsLe : JSNum → JSNum → Bool
  | .nan, _ => false
  | _, .nan => false
  | .negInf, _ => true
  | _, .negInf => false
  | _, .posInf => true
  | .posInf, _ => false
  | .num a, .num b => decide (a ≤ b)

/-- One row of the EDR alert CSV (fields used by the aggregator). -/
structure EdrDataType where
  Severity : String
  IOCType : String
  AlertType : String
  Status : String
  Hostname : String
deriving DecidableEq, Repr

/-- One row of the vulnerabilities CSV (fields used by the aggregator).
Date fields hold the epoch-millisecond value of a present date, `none` for
an absent/blank cell. -/
structure VulnDataType where
  Severity : String
  Status : String
  DetectionSource : String
  DetectionDate : Option Int
  PatchAppliedDate : Option Int
  IsCritical : String
  IsPatchable : String
  AssetID : String
  RecommendedTimeframe : Option ℚ
deriving DecidableEq, Repr

/-- One chart entry `{ name, value, percentage }`. -/
structure BreakdownEntry where
  name : String
  value : ℕ
  percentage : JSNum
deriving DecidableEq, Repr

structure EdrKpis where
  totalAlerts : ℕ
  criticalRate : JSNum
  iocDetectionRate : JSNum
  severityData : List BreakdownEntry
  alertTypeData : List BreakdownEntry
  suspiciousConnectionRate : JSNum
  uniqueEndpoints : ℕ
  statusData : List BreakdownEntry
deriving DecidableEq, Repr

structure VulnKpis where
  totalVulnerabilities : ℕ
  severityData : List BreakdownEntry
  statusData : List BreakdownEntry
  sourceData : List BreakdownEntry
  remediationRate : JSNum
  avgRemediationTime : JSNum
  criticalVulnerabilityRate : JSNum
  patchesInTimeRate : JSNum
deriving DecidableEq, Repr

/-- `acc[key] = (acc[key] || 0) + 1` on a JS object, in insertion order. -/
def bumpCount (acc : List (String × ℕ)) (key : String) : List (String × ℕ) :=
  if acc.any (fun p => p.1 == key) then
    acc.map (fun p => if p.1 == key then (p.1, p.2 + 1) else p)
  else acc ++ [(key, 1)]

/-- `data.reduce((acc, r) => { acc[key r] = (acc[key r] || 0) + 1; return acc }, {})`. -/
def countsBy {α : Type} (key : α → String) (data : List α) : List (String × ℕ) :=
  data.foldl (fun acc r => bumpCount acc (key r)) []

def calculateSeverityCounts (data : List EdrDataType) : List (String × ℕ) :=
  countsBy (fun alert => alert.Severity) data

def calculateAlertTypeCounts (data : List EdrDataType) : List (String × ℕ) :=
  countsBy (fun alert => alert.AlertType) data

def calculateStatusCounts (data : List EdrDataType) : List (String × ℕ) :=
  countsBy (fun alert => alert.Status) data

def calculateVulnSeverityCounts (data : List VulnDataType) : List (String × ℕ) :=
  countsBy (fun vuln => vuln.Severity) data

def calculateVulnStatusCounts (data : List VulnDataType) : List (String × ℕ) :=
  countsBy (fun vuln => vuln.Status) data

def calculateSourceCounts (data : List VulnDataType) : List (String × ℕ) :=
  countsBy (fun vuln => vuln.DetectionSource) data

/-- `Object.keys(counts).map(key => ({ name, value, percentage }))`. -/
def toBreakdown (counts : List (String × ℕ)) (total : ℕ) : List BreakdownEntry :=
  counts.map (fun p => ⟨p.1, p.2, jsMul100 (jsDiv (p.2 : ℚ) (total : ℚ))⟩)

def calculateEdrKpis (data : List EdrDataType) : EdrKpis :=
  let totalAlerts := data.length
  let criticalAlerts := (data.filter (fun alert => alert.Severity == "Critical")).length
  let criticalRate := jsMul100 (jsDiv (criticalAlerts : ℚ) (totalAlerts : ℚ))
  let alertsWithIoC := (data.filter (fun alert =>
    alert.IOCType != "" && alert.IOCType != "None" && alert.IOCType != "")).length
  let iocDetectionRate := jsMul100 (jsDiv (alertsWithIoC : ℚ) (totalAlerts : ℚ))
  let severityCounts := calculateSeverityCounts data
  let severityData := toBreakdown severityCounts totalAlerts
  let alertTypeCounts := calculateAlertTypeCounts data
  let alertTypeData := toBreakdown alertTypeCounts totalAlerts
  let networkConnections := (data.filter (fun alert => alert.AlertType == "Network Connection")).length
  let suspiciousConnections := (data.filter (fun alert =>
    alert.AlertType == "Network Connection" &&
    (alert.Severity == "Critical" || alert.Severity == "High"))).length
  let suspiciousConnectionRate : JSNum :=
    if networkConnections ≠ 0 then
      jsMul100 (jsDiv (suspiciousConnections : ℚ) (networkConnections : ℚ))
    else .num 0
  let uniqueEndpoints := (data.map (fun alert => alert.Hostname)).dedup
  let statusCounts := calculateStatusCounts data
  let statusData := toBreakdown statusCounts totalAlerts
  { totalAlerts := totalAlerts
    criticalRate := criticalRate
    iocDetectionRate := iocDetectionRate
    severityData := severityData
    alertTypeData := alertTypeData
    suspiciousConnectionRate := suspiciousConnectionRate
    uniqueEndpoints := uniqueEndpoints.length
    statusData := statusData }

/-- Filter `vuln.Status === "Resolved" && vuln.PatchAppliedDate && vuln.DetectionDate`. -/
def resolvedWithDates (data : List VulnDataType) : List VulnDataType :=
  data.filter (fun vuln =>
    vuln.Status == "Resolved" && vuln.PatchAppliedDate.isSome && vuln.DetectionDate.isSome)

/-- `(patchDate.getTime() - detectionDate.getTime()) / (1000*60*60*24)`;
only evaluated on records where both dates are present. -/
def daysDiff (vuln : VulnDataType) : ℚ :=
  (((vuln.PatchAppliedDate.getD 0 - vuln.DetectionDate.getD 0 : Int) : ℚ)) / (1000 * 60 * 60 * 24)

/-- `vuln.RecommendedTimeframe || Infinity` (JS `||`: any falsy value,
including the number 0, falls through to Infinity). -/
def timeframeOrInf (t : Option ℚ) : JSNum :=
  match t with
  | none => .posInf
  | some q => if q = 0 then .posInf else .num q

def calculateVulnKpis (data : List VulnDataType) : VulnKpis :=
  let totalVulnerabilities := data.length
  let severityCounts := calculateVulnSeverityCounts data
  let severityData := toBreakdown severityCounts totalVulnerabilities
  let statusCounts := calculateVulnStatusCounts data
  let statusData := toBreakdown statusCounts totalVulnerabilities
  let sourceCounts := calculateSourceCounts data
  let sourceData := toBreakdown sourceCounts totalVulnerabilities
  let resolvedVulnerabilities := (data.filter (fun vuln => vuln.Status == "Resolved")).length
  let remediationRate := jsMul100 (jsDiv (resolvedVulnerabilities : ℚ) (totalVulnerabilities : ℚ))
  let resolvedVulns := resolvedWithDates data
  let totalRemediationTime : ℚ := resolvedVulns.foldl (fun acc vuln => acc + daysDiff vuln) 0
  let avgRemediationTime : JSNum :=
    if resolvedVulns.length > 0 then .num (totalRemediationTime / (resolvedVulns.length : ℚ))
    else .num 0
  let criticalAssets :=
    ((data.filter (fun vuln => vuln.IsCritical == "Oui")).map (fun vuln => vuln.AssetID)).dedup
  let unpatchableCriticalAssets :=
    ((data.filter (fun vuln =>
      vuln.IsCritical == "Oui" && vuln.IsPatchable == "Non")).map (fun vuln => vuln.AssetID)).dedup
  let criticalVulnerabilityRate : JSNum :=
    if criticalAssets.length > 0 then
      .num (((unpatchableCriticalAssets.length : ℚ) / (criticalAssets.length : ℚ)) * 100)
    else .num 0
  let patchesInTime : ℕ := resolvedVulns.foldl (fun acc vuln =>
    if jsLe (.num (daysDiff vuln)) (timeframeOrInf vuln.RecommendedTimeframe) then acc + 1
    else acc) 0
  let patchesInTimeRate : JSNum :=
    if resolvedVulns.length > 0 then
      .num (((patchesInTime : ℚ) / (resolvedVulns.length : ℚ)) * 100)
    else .num 0
  { totalVulnerabilities := totalVulnerabilities
    severityData := severityData
    statusData := statusData
    sourceData := sourceData
    remediationRate := remediationRate
    avgRemediationTime := avgRemediationTime
    criticalVulnerabilityRate := criticalVulnerabilityRate
    patchesInTimeRate := patchesInTimeRate }

/-- Initial `useState` value for the EDR KPIs (all-zero defaults). -/
def initialEdrKpis : EdrKpis :=
  { totalAlerts := 0
    criticalRate := .num 0
    iocDetectionRate := .num 0
    severityData := []
    alertTypeData := []
    suspiciousConnectionRate := .num 0
    uniqueEndpoints := 0
    statusData := [] }

/-- Initial `useState` value for the vulnerability KPIs (all-zero defaults). -/
def initialVulnKpis : VulnKpis :=
  { totalVulnerabilities := 0
    severityData := []
    statusData := []
    sourceData := []
    remediationRate := .num 0
    avgRemediationTime := .num 0
    criticalVulnerabilityRate := .num 0
    patchesInTimeRate := .num 0 }

/-- Component state: the `useState` hooks plus the diagnostic log
(`console.error` output). -/
structure AppState where
  edrData : List EdrDataType
  vulnData : List VulnDataType
  edrKpis : EdrKpis
  vulnKpis : VulnKpis
  loading : Bool
  errorLog : List String
deriving Repr

def initialState : AppState :=
  { edrData := []
    vulnData := []
    edrKpis := initialEdrKpis
    vulnKpis := initialVulnKpis
    loading := true
    errorLog := [] }

/-- The `loadData` routine: each fetch-and-parse step either yields a parsed
record list or throws; the whole body is wrapped in one try/catch whose
handler logs the error and clears the loading flag.  State updates
(`setEdrData`, `calculateEdrKpis`, ...) all happen after both parses. -/
def loadData (edrFetch : Except String (List EdrDataType))
    (vulnFetch : Except String (List VulnDataType)) (s : AppState) : AppState :=
  match edrFetch with
  | .error e => { s with loading := false, errorLog := s.errorLog ++ [e] }
  | .ok edrRecords =>
    match vulnFetch with
    | .error e => { s with loading := false, errorLog := s.errorLog ++ [e] }
    | .ok vulnRecords =>
      { s with
        edrData := edrRecords
        vulnData := vulnRecords
        edrKpis := calculateEdrKpis edrRecords
        vulnKpis := calculateVulnKpis vulnRecords
        loading := false }

/-- What the component renders: the spinner while loading, otherwise the
dashboard driven purely by the two summaries.  There is no error view. -/
inductive View where
  | loadingScreen : View
  | dashboard : EdrKpis → VulnKpis → View
deriving DecidableEq, Repr

def render (s : AppState) : View :=
  if s.loading then .loadingScreen else .dashboard s.edrKpis s.vulnKpis

/-- `toFixed(1)` display rounding of a finite value, as a rational. -/
def toFixed1 (q : ℚ) : ℚ := (round (q * 10) : ℤ) / 10

/-! ### Counting lemmas for the JS-object counters -/

theorem bumpCount_map_fst (acc : List (String × ℕ)) (k : String) :
    (bumpCount acc k).map Prod.fst =
      if acc.any (fun p => p.1 == k) then acc.map Prod.fst
      else acc.map Prod.fst ++ [k] := by
  unfold bumpCount
  by_cases hc : acc.any (fun p => p.1 == k)
  · simp [hc]
    intro a b _
    by_cases hak : a = k <;> simp [hak]
  · simp [hc]

theorem bumpCount_nodup (acc : List (String × ℕ)) (k : String)
    (h : (acc.map Prod.fst).Nodup) : ((bumpCount acc k).map Prod.fst).Nodup := by
  rw [bumpCount_map_fst]
  by_cases hc : acc.any (fun p => p.1 == k)
  · simpa [hc] using h
  · have hk : k ∉ acc.map Prod.fst := by
      intro hmem
      rcases List.mem_map.mp hmem with ⟨p, hp, hpk⟩
      exact hc (List.any_eq_true.mpr ⟨p, hp, by simp [hpk]⟩)
    simp [hc, List.nodup_append, h, hk]

theorem sum_map_incr (acc : List (String × ℕ)) (k : String)
    (hmem : acc.any (fun p => p.1 == k) = true)
    (hnd : (acc.map Prod.fst).Nodup) :
    ((acc.map (fun p => if p.1 == k then (p.1, p.2 + 1) else p)).map Prod.snd).sum
      = (acc.map Prod.snd).sum + 1 := by
  induction acc with
  | nil => simp at hmem
  | cons p t ih =>
    simp only [List.map_cons, List.nodup_cons] at hnd
    by_cases hpk : p.1 == k
    · have hpk' : p.1 = k := by simpa using hpk
      have ht : t.map (fun q => if q.1 == k then (q.1, q.2 + 1) else q) = t := by
        have : ∀ q ∈ t, (if q.1 == k then (q.1, q.2 + 1) else q) = q := by
          intro q hq
          have hqk : ¬ (q.1 == k) := by
            intro hqk'
            apply hnd.1
            have : q.1 = k := by simpa using hqk'
            rw [← hpk'] at this
            exact this ▸ List.mem_map.mpr ⟨q, hq, this.symm ▸ rfl⟩
          simp [hqk]
        calc t.map (fun q => if q.1 == k then (q.1, q.2 + 1) else q)
            = t.map id := List.map_congr_left (by simpa using this)
          _ = t := List.map_id t
      simp only [List.map_cons, hpk, if_true, ht, List.sum_cons]
      omega
    · have hmem' : t.any (fun p => p.1 == k) = true := by
        simpa [hpk] using hmem
      have ih' := ih hmem' hnd.2
      simp only [List.map_cons, List.sum_cons]
      rw [if_neg hpk, ih']
      omega

theorem bumpCount_sum (acc : List (String × ℕ)) (k : String)
    (hnd : (acc.map Prod.fst).Nodup) :
    ((bumpCount acc k).map Prod.snd).sum = (acc.map Prod.snd).sum + 1 := by
  unfold bumpCount
  by_cases hc : acc.any (fun p => p.1 == k)
  · simpa [hc] using sum_map_incr acc k hc hnd
  · simp [hc]

theorem countsBy_invariant {α : Type} (key : α → String) (data : List α) :
    ∀ acc : List (String × ℕ), (acc.map Prod.fst).Nodup →
      (((data.foldl (fun a r => bumpCount a (key r)) acc).map Prod.fst).Nodup ∧
       ((data.foldl (fun a r => bumpCount a (key r)) acc).map Prod.snd).sum
         = (acc.map Prod.snd).sum + data.length) := by
  induction data with
  | nil => intro acc h; simp [h]
  | cons r t ih =>
    intro acc h
    simp only [List.foldl_cons]
    obtain ⟨hn, hs⟩ := ih (bumpCount acc (key r)) (bumpCount_nodup acc (key r) h)
    refine ⟨hn, ?_⟩
    rw [hs, bumpCount_sum acc (key r) h]
    simp only [List.length_cons]
    omega

theorem countsBy_sum {α : Type} (key : α → String) (data : List α) :
    ((countsBy key data).map Prod.snd).sum = data.length := by
  have h := countsBy_invariant key data [] (by simp)
  simpa [countsBy] using h.2

theorem jsSum_map_num (l : List ℚ) : jsSum (l.map JSNum.num) = JSNum.num l.sum := by
  induction l with
  | nil => simp [jsSum]
  | cons a t ih =>
    simp only [List.map_cons, jsSum, List.foldr_cons, List.sum_cons]
    have h : (t.map JSNum.num).foldr jsAdd (.num 0) = JSNum.num t.sum := ih
    rw [h]
    simp [jsAdd]

theorem toBreakdown_pct_sum (counts : List (String × ℕ)) (n : ℕ) (hn : n ≠ 0)
    (hsum : (counts.map Prod.snd).sum = n) :
    jsSum ((toBreakdown counts n).map (fun e => e.percentage)) = JSNum.num 100 := by
  have hnq : (n : ℚ) ≠ 0 := Nat.cast_ne_zero.mpr hn
  have h1 : (toBreakdown counts n).map (fun e => e.percentage)
      = (counts.map (fun p => ((p.2 : ℚ) / (n : ℚ)) * 100)).map JSNum.num := by
    unfold toBreakdown
    rw [List.map_map, List.map_map]
    apply List.map_congr_left
    intro p _
    simp [Function.comp, jsDiv, hnq, jsMul100]
  rw [h1, jsSum_map_num]
  congr 1
  have h3 : counts.map (fun p => ((p.2 : ℚ) / (n : ℚ)) * 100)
      = counts.map (fun p => ((p.2 : ℚ)) * (100 / (n : ℚ))) := by
    apply List.map_congr_left
    intro p _
    field_simp
  rw [h3, List.sum_map_mul_right]
  have h4 : (counts.map (fun p => ((p.2 : ℕ) : ℚ))).sum
      = (((counts.map Prod.snd).sum : ℕ) : ℚ) := by
    rw [Nat.cast_list_sum, List.map_map]
    rfl
  rw [h4, hsum]
  field_simp

/-! ### Generic foldl lemmas -/

theorem foldl_add_eq_sum {α : Type} (f : α → ℚ) (l : List α) :
    ∀ acc : ℚ, l.foldl (fun a v => a + f v) acc = acc + (l.map f).sum := by
  induction l with
  | nil => intro acc; simp
  | cons x t ih =>
    intro acc
    simp only [List.foldl_cons, List.map_cons, List.sum_cons, ih]
    ring

theorem foldl_count_eq_filter_length {α : Type} (p : α → Bool) (l : List α) :
    ∀ acc : ℕ, l.foldl (fun acc v => if p v then acc + 1 else acc) acc
      = acc + (l.filter p).length := by
  induction l with
  | nil => intro acc; simp
  | cons x t ih =>
    intro acc
    by_cases hx : p x
    · simp [hx, List.foldl_cons, List.filter_cons, ih]
      omega
    · simp [hx, List.foldl_cons, List.filter_cons, ih]

/-! ### Projection lemmas for the aggregators -/

theorem calculateEdrKpis_criticalRate (data : List EdrDataType) :
    (calculateEdrKpis data).criticalRate
      = jsMul100 (jsDiv ((data.filter (fun alert => alert.Severity == "Critical")).length : ℚ)
          (data.length : ℚ)) := rfl

theorem calculateEdrKpis_suspiciousConnectionRate (data : List EdrDataType) :
    (calculateEdrKpis data).suspiciousConnectionRate
      = (if (data.filter (fun alert => alert.AlertType == "Network Connection")).length ≠ 0 then
          jsMul100 (jsDiv
            ((data.filter (fun alert => alert.AlertType == "Network Connection" &&
              (alert.Severity == "Critical" || alert.Severity == "High"))).length : ℚ)
            ((data.filter (fun alert => alert.AlertType == "Network Connection")).length : ℚ))
        else .num 0) := rfl

theorem calculateVulnKpis_avgRemediationTime (data : List VulnDataType) :
    (calculateVulnKpis data).avgRemediationTime
      = (if (resolvedWithDates data).length > 0 then
          JSNum.num (((resolvedWithDates data).foldl (fun acc vuln => acc + daysDiff vuln) 0)
            / ((resolvedWithDates data).length : ℚ))
        else JSNum.num 0) := rfl

theorem calculateVulnKpis_patchesInTimeRate (data : List VulnDataType) :
    (calculateVulnKpis data).patchesInTimeRate
      = (if (resolvedWithDates data).length > 0 then
          JSNum.num ((((resolvedWithDates data).foldl (fun acc vuln =>
            if jsLe (.num (daysDiff vuln)) (timeframeOrInf vuln.RecommendedTimeframe)
            then acc + 1 else acc) 0 : ℕ) : ℚ)
            / ((resolvedWithDates data).length : ℚ) * 100)
        else JSNum.num 0) := rfl

theorem calculateVulnKpis_criticalVulnerabilityRate (data : List VulnDataType) :
    (calculateVulnKpis data).criticalVulnerabilityRate
      = (if (((data.filter (fun vuln => vuln.IsCritical == "Oui")).map
            (fun vuln => vuln.AssetID)).dedup).length > 0 then
          JSNum.num (((((data.filter (fun vuln =>
              vuln.IsCritical == "Oui" && vuln.IsPatchable == "Non")).map
              (fun vuln => vuln.AssetID)).dedup).length : ℚ)
            / ((((data.filter (fun vuln => vuln.IsCritical == "Oui")).map
              (fun vuln => vuln.AssetID)).dedup).length : ℚ) * 100)
        else JSNum.num 0) := rfl

/-! ### Distinct-count monotonicity -/

theorem dedup_length_mono {l1 l2 : List String} (h : l1 ⊆ l2) :
    l1.dedup.length ≤ l2.dedup.length := by
  rw [← List.card_toFinset, ← List.card_toFinset]
  apply Finset.card_le_card
  intro x hx
  rw [List.mem_toFinset] at hx ⊢
  exact h hx

/-- The helper satisfied by the `jsLe`-against-`|| Infinity` test. -/
theorem jsLe_timeframeOrInf (d : ℚ) (t : Option ℚ) :
    jsLe (.num d) (timeframeOrInf t)
      = (match t with
         | none => true
         | some q => if q = 0 then true else decide (d ≤ q)) := by
  cases t with
  | none => rfl
  | some q => by_cases hq : q = 0 <;> simp [timeframeOrInf, jsLe, hq]

/-! ### Example records from the spec's worked examples -/

def alertCritical1 : EdrDataType :=
  { Severity := "Critical", IOCType := "Hash", AlertType := "Process"
    Status := "Open", Hostname := "host-1" }

def alertCritical2 : EdrDataType :=
  { Severity := "Critical", IOCType := "None", AlertType := "Network Connection"
    Status := "Closed", Hostname := "host-2" }

def alertLow : EdrDataType :=
  { Severity := "Low", IOCType := "", AlertType := "Process"
    Status := "Open", Hostname := "host-1" }

/-- The spec's three-record alert example (Critical, Critical, Low). -/
def edrExample : List EdrDataType := [alertCritical1, alertCritical2, alertLow]

/-! ### C1 -/

/-- C1 (amended): applying either aggregator to the empty record list yields
totals of 0 and zero for the explicitly guarded rates
(`suspiciousConnectionRate`, `avgRemediationTime`,
`criticalVulnerabilityRate`, `patchesInTimeRate`), but `criticalRate`,
`iocDetectionRate` and `remediationRate` come out NaN because their
divisions by the zero total are unguarded. -/
theorem summarize_empty_behavior :
    (calculateEdrKpis []).totalAlerts = 0 ∧
    (calculateVulnKpis []).totalVulnerabilities = 0 ∧
    (calculateEdrKpis []).suspiciousConnectionRate = JSNum.num 0 ∧
    (calculateVulnKpis []).avgRemediationTime = JSNum.num 0 ∧
    (calculateVulnKpis []).criticalVulnerabilityRate = JSNum.num 0 ∧
    (calculateVulnKpis []).patchesInTimeRate = JSNum.num 0 ∧
    (calculateEdrKpis []).criticalRate = JSNum.nan ∧
    (calculateEdrKpis []).iocDetectionRate = JSNum.nan ∧
    (calculateVulnKpis []).remediationRate = JSNum.nan := by
  refine ⟨rfl, rfl, ?_, ?_, ?_, ?_, ?_, ?_, ?_⟩ <;>
    simp [calculateEdrKpis, calculateVulnKpis, resolvedWithDates, jsDiv, jsMul100]

/-- C1 counterexample: on the empty record list three of the rate fields are
not 0 (they are NaN), refuting the claim that every rate field is 0. -/
theorem summarize_empty_not_all_zero :
    (calculateEdrKpis []).criticalRate ≠ JSNum.num 0 ∧
    (calculateEdrKpis []).iocDetectionRate ≠ JSNum.num 0 ∧
    (calculateVulnKpis []).remediationRate ≠ JSNum.num 0 := by
  refine ⟨?_, ?_, ?_⟩ <;>
    simp [calculateEdrKpis, calculateVulnKpis, jsDiv, jsMul100]

/-! ### C7 -/

/-- C7 (amended): for every non-empty alert list, `criticalRate` is
100 · (critical count) / total (on the empty list it is NaN, not 0); the
spec's three-record example gives total 3, internal `criticalRate` 200/3
(displayed as 66.7 by `toFixed(1)`), and a severity breakdown of
Critical 2 (200/3 %, displayed 66.7) and Low 1 (100/3 %, displayed 33.3). -/
theorem criticalRate_formula_and_example :
    (∀ data : List EdrDataType, data ≠ [] →
      (calculateEdrKpis data).criticalRate
        = JSNum.num (100 * ((data.filter (fun alert => alert.Severity == "Critical")).length : ℚ)
            / (data.length : ℚ))) ∧
    (calculateEdrKpis edrExample).totalAlerts = 3 ∧
    (calculateEdrKpis edrExample).criticalRate = JSNum.num (200 / 3) ∧
    toFixed1 (200 / 3) = 667 / 10 ∧
    (calculateEdrKpis edrExample).severityData
      = [⟨"Critical", 2, JSNum.num (200 / 3)⟩, ⟨"Low", 1, JSNum.num (100 / 3)⟩] ∧
    toFixed1 (100 / 3) = 333 / 10 := by
  refine ⟨?_, rfl, ?_, ?_, ?_, ?_⟩
  · intro data h
    have hn : (data.length : ℚ) ≠ 0 := by
      simpa using fun hl => h (List.length_eq_zero.mp hl)
    rw [calculateEdrKpis_criticalRate]
    simp [jsDiv, hn, jsMul100]
    ring
  · rw [calculateEdrKpis_criticalRate]
    simp [edrExample, alertCritical1, alertCritical2, alertLow, jsDiv, jsMul100]
    norm_num
  · simp [toFixed1]
    rw [round_eq]
    norm_num
  · simp [calculateEdrKpis, calculateSeverityCounts, countsBy, bumpCount, toBreakdown,
      edrExample, alertCritical1, alertCritical2, alertLow, jsDiv, jsMul100]
    norm_num
  · simp [toFixed1]
    rw [round_eq]
    norm_num

/-- C7 witness: the non-empty-list clause of `criticalRate_formula_and_example`
instantiated at the spec's three-record example. -/
theorem criticalRate_formula_witness :
    (calculateEdrKpis edrExample).criticalRate
      = JSNum.num (100 * ((edrExample.filter (fun alert => alert.Severity == "Critical")).length : ℚ)
          / (edrExample.length : ℚ)) :=
  criticalRate_formula_and_example.1 edrExample (by simp [edrExample])

/-- C7 counterexample: on the empty list `criticalRate` is NaN, not the
claimed 0. -/
theorem criticalRate_empty_is_nan :
    (calculateEdrKpis []).criticalRate = JSNum.nan ∧ JSNum.nan ≠ JSNum.num 0 := by
  constructor
  · simp [calculateEdrKpis, jsDiv, jsMul100]
  · simp

/-! ### Example vulnerability records -/

/-- Resolved, detection→patch delta of 2 days. -/
def vulnResolved2d : VulnDataType :=
  { Severity := "High", Status := "Resolved", DetectionSource := "Scanner"
    DetectionDate := some 0, PatchAppliedDate := some 172800000
    IsCritical := "Non", IsPatchable := "Oui", AssetID := "srv-1"
    RecommendedTimeframe := some 30 }

/-- Resolved, detection→patch delta of 4 days, no recommended timeframe. -/
def vulnResolved4d : VulnDataType :=
  { Severity := "Medium", Status := "Resolved", DetectionSource := "Pentest"
    DetectionDate := some 0, PatchAppliedDate := some 345600000
    IsCritical := "Non", IsPatchable := "Oui", AssetID := "srv-2"
    RecommendedTimeframe := none }

/-- Critical and unpatchable record on asset srv-9. -/
def vulnCritUnpatchable : VulnDataType :=
  { Severity := "Critical", Status := "Open", DetectionSource := "Scanner"
    DetectionDate := none, PatchAppliedDate := none
    IsCritical := "Oui", IsPatchable := "Non", AssetID := "srv-9"
    RecommendedTimeframe := none }

/-- Non-critical record on the same asset srv-9. -/
def vulnNonCritical : VulnDataType :=
  { Severity := "Low", Status := "Open", DetectionSource := "Scanner"
    DetectionDate := none, PatchAppliedDate := none
    IsCritical := "Non", IsPatchable := "Oui", AssetID := "srv-9"
    RecommendedTimeframe := some 30 }

/-- Resolved after 5 days with a recommended timeframe of 0 days. -/
def vulnZeroTimeframe : VulnDataType :=
  { Severity := "High", Status := "Resolved", DetectionSource := "Scanner"
    DetectionDate := some 0, PatchAppliedDate := some 432000000
    IsCritical := "Non", IsPatchable := "Oui", AssetID := "srv-3"
    RecommendedTimeframe := some 0 }

/-! ### C3 -/

/-- C3 (confirmed): for every non-empty record list fed to either
aggregator, the percentages of each breakdown (severity, alert type and
status for alerts; severity, status and detection source for
vulnerabilities) sum to exactly 100. -/
theorem breakdown_percentages_sum_100
    (a : List EdrDataType) (v : List VulnDataType) (ha : a ≠ []) (hv : v ≠ []) :
    jsSum ((calculateEdrKpis a).severityData.map (fun e => e.percentage)) = JSNum.num 100 ∧
    jsSum ((calculateEdrKpis a).alertTypeData.map (fun e => e.percentage)) = JSNum.num 100 ∧
    jsSum ((calculateEdrKpis a).statusData.map (fun e => e.percentage)) = JSNum.num 100 ∧
    jsSum ((calculateVulnKpis v).severityData.map (fun e => e.percentage)) = JSNum.num 100 ∧
    jsSum ((calculateVulnKpis v).statusData.map (fun e => e.percentage)) = JSNum.num 100 ∧
    jsSum ((calculateVulnKpis v).sourceData.map (fun e => e.percentage)) = JSNum.num 100 := by
  have hna : a.length ≠ 0 := fun hl => ha (List.length_eq_zero.mp hl)
  have hnv : v.length ≠ 0 := fun hl => hv (List.length_eq_zero.mp hl)
  exact ⟨toBreakdown_pct_sum _ _ hna (countsBy_sum _ a),
    toBreakdown_pct_sum _ _ hna (countsBy_sum _ a),
    toBreakdown_pct_sum _ _ hna (countsBy_sum _ a),
    toBreakdown_pct_sum _ _ hnv (countsBy_sum _ v),
    toBreakdown_pct_sum _ _ hnv (countsBy_sum _ v),
    toBreakdown_pct_sum _ _ hnv (countsBy_sum _ v)⟩

/-- C3 witness: the percentage sums evaluated on concrete singleton record
lists. -/
theorem breakdown_percentages_sum_100_witness :
    jsSum ((calculateEdrKpis [alertCritical1]).severityData.map (fun e => e.percentage)) = JSNum.num 100 ∧
    jsSum ((calculateEdrKpis [alertCritical1]).alertTypeData.map (fun e => e.percentage)) = JSNum.num 100 ∧
    jsSum ((calculateEdrKpis [alertCritical1]).statusData.map (fun e => e.percentage)) = JSNum.num 100 ∧
    jsSum ((calculateVulnKpis [vulnResolved2d]).severityData.map (fun e => e.percentage)) = JSNum.num 100 ∧
    jsSum ((calculateVulnKpis [vulnResolved2d]).statusData.map (fun e => e.percentage)) = JSNum.num 100 ∧
    jsSum ((calculateVulnKpis [vulnResolved2d]).sourceData.map (fun e => e.percentage)) = JSNum.num 100 :=
  breakdown_percentages_sum_100 [alertCritical1] [vulnResolved2d]
    (List.cons_ne_nil _ _) (List.cons_ne_nil _ _)

/-! ### C4 -/

/-- C4 (confirmed): the critical-asset exposure rate
(`criticalVulnerabilityRate` in the code) equals 100 times the number of
distinct asset ids among critical-and-unpatchable records divided by the
number of distinct asset ids among critical records, 0 when no critical
assets exist; on the two-record single-asset example the rate is 100. -/
theorem criticalAssetExposureRate_formula :
    (∀ data : List VulnDataType,
      (calculateVulnKpis data).criticalVulnerabilityRate
        = (if (((data.filter (fun vuln => vuln.IsCritical == "Oui")).map
              (fun vuln => vuln.AssetID)).dedup).length = 0 then JSNum.num 0
           else JSNum.num (100 * ((((data.filter (fun vuln =>
               vuln.IsCritical == "Oui" && vuln.IsPatchable == "Non")).map
               (fun vuln => vuln.AssetID)).dedup).length : ℚ)
             / ((((data.filter (fun vuln => vuln.IsCritical == "Oui")).map
               (fun vuln => vuln.AssetID)).dedup).length : ℚ)))) ∧
    (calculateVulnKpis [vulnCritUnpatchable, vulnNonCritical]).criticalVulnerabilityRate
      = JSNum.num 100 := by
  constructor
  · intro data
    rw [calculateVulnKpis_criticalVulnerabilityRate]
    by_cases h : (((data.filter (fun vuln => vuln.IsCritical == "Oui")).map
        (fun vuln => vuln.AssetID)).dedup).length = 0
    · simp [h]
    · have hq : (((((data.filter (fun vuln => vuln.IsCritical == "Oui")).map
          (fun vuln => vuln.AssetID)).dedup).length : ℚ)) ≠ 0 := Nat.cast_ne_zero.mpr h
      simp [h, Nat.pos_of_ne_zero h]
      ring
  · rw [calculateVulnKpis_criticalVulnerabilityRate]
    simp [vulnCritUnpatchable, vulnNonCritical, List.filter]

/-! ### C5 -/

/-- C5 (confirmed): `avgRemediationTime` is the mean of the fractional
day differences (patch minus detection, by date-time subtraction) over
resolved records with both dates present, 0 when that subset is empty;
the two-record example with deltas of 2 and 4 days averages to 3. -/
theorem avgRemediationTime_formula :
    (∀ data : List VulnDataType,
      (calculateVulnKpis data).avgRemediationTime
        = (if (resolvedWithDates data).length = 0 then JSNum.num 0
           else JSNum.num ((((resolvedWithDates data).map daysDiff).sum)
             / ((resolvedWithDates data).length : ℚ)))) ∧
    (calculateVulnKpis [vulnResolved2d, vulnResolved4d]).avgRemediationTime = JSNum.num 3 := by
  constructor
  · intro data
    rw [calculateVulnKpis_avgRemediationTime, foldl_add_eq_sum]
    by_cases h : (resolvedWithDates data).length = 0
    · simp [h]
    · simp [h, Nat.pos_of_ne_zero h]
  · rw [calculateVulnKpis_avgRemediationTime]
    simp [resolvedWithDates, vulnResolved2d, vulnResolved4d, daysDiff, List.filter]
    norm_num

/-! ### C6 -/

/-- C6 (confirmed): `suspiciousConnectionRate` equals 100 times the count of
"Network Connection" records with severity "Critical" or "High" divided by
the count of "Network Connection" records, and 0 when there are none. -/
theorem suspiciousConnectionRate_formula (data : List EdrDataType) :
    (calculateEdrKpis data).suspiciousConnectionRate
      = (if (data.filter (fun alert => alert.AlertType == "Network Connection")).length = 0
         then JSNum.num 0
         else JSNum.num (100 * ((data.filter (fun alert =>
             alert.AlertType == "Network Connection" &&
             (alert.Severity == "Critical" || alert.Severity == "High"))).length : ℚ)
           / ((data.filter (fun alert => alert.AlertType == "Network Connection")).length : ℚ))) := by
  rw [calculateEdrKpis_suspiciousConnectionRate]
  by_cases h : (data.filter (fun alert => alert.AlertType == "Network Connection")).length = 0
  · simp [h]
  · have hq : ((data.filter (fun alert => alert.AlertType == "Network Connection")).length : ℚ) ≠ 0 :=
      Nat.cast_ne_zero.mpr h
    simp [h, jsDiv, hq, jsMul100]
    ring

/-! ### C10 -/

/-- C10 (confirmed): the critical-asset exposure rate always lies between 0
and 100, because the distinct unpatchable-critical asset ids are a subset of
the distinct critical asset ids. -/
theorem criticalAssetExposureRate_bounded (data : List VulnDataType) :
    ∃ q : ℚ, (calculateVulnKpis data).criticalVulnerabilityRate = JSNum.num q ∧
      0 ≤ q ∧ q ≤ 100 := by
  rw [calculateVulnKpis_criticalVulnerabilityRate]
  have hsub : ((data.filter (fun vuln =>
      vuln.IsCritical == "Oui" && vuln.IsPatchable == "Non")).map (fun vuln => vuln.AssetID))
      ⊆ ((data.filter (fun vuln => vuln.IsCritical == "Oui")).map (fun vuln => vuln.AssetID)) := by
    intro x hx
    rcases List.mem_map.mp hx with ⟨vuln, hv, rfl⟩
    rcases List.mem_filter.mp hv with ⟨hmem, hpred⟩
    refine List.mem_map.mpr ⟨vuln, List.mem_filter.mpr ⟨hmem, ?_⟩, rfl⟩
    simp only [Bool.and_eq_true] at hpred
    exact hpred.1
  have hlen := dedup_length_mono hsub
  set u := (((data.filter (fun vuln =>
      vuln.IsCritical == "Oui" && vuln.IsPatchable == "Non")).map
      (fun vuln => vuln.AssetID)).dedup).length with hu
  set c := (((data.filter (fun vuln => vuln.IsCritical == "Oui")).map
      (fun vuln => vuln.AssetID)).dedup).length with hc
  by_cases h0 : c = 0
  · exact ⟨0, by simp [h0], le_refl 0, by norm_num⟩
  · have hcpos : 0 < c := Nat.pos_of_ne_zero h0
    have hcq : (0 : ℚ) < (c : ℚ) := by exact_mod_cast hcpos
    refine ⟨((u : ℚ) / (c : ℚ)) * 100, by simp [hcpos], by positivity, ?_⟩
    have h1 : (u : ℚ) / (c : ℚ) ≤ 1 := by
      rw [div_le_one hcq]
      exact_mod_cast hlen
    calc (u : ℚ) / (c : ℚ) * 100 ≤ 1 * 100 := by
          apply mul_le_mul_of_nonneg_right h1
          norm_num
      _ = 100 := by norm_num

/-! ### C8 -/

/-- C8 (confirmed): appending a record of severity "Critical" never makes
`criticalRate` decrease: the new rate is never JS-less-than the old one,
and when the original list is non-empty (both rates finite) the old rate
is JS-less-or-equal to the new one.  From the empty list the rate moves
from NaN to 100, which is not a decrease. -/
theorem criticalRate_append_critical_monotone
    (data : List EdrDataType) (r : EdrDataType) (h : r.Severity = "Critical") :
    jsLt ((calculateEdrKpis (data ++ [r])).criticalRate)
        ((calculateEdrKpis data).criticalRate) = false ∧
    (data ≠ [] → jsLe ((calculateEdrKpis data).criticalRate)
        ((calculateEdrKpis (data ++ [r])).criticalRate) = true) := by
  by_cases hd : data = []
  · subst hd
    refine ⟨?_, fun h' => absurd rfl h'⟩
    simp [calculateEdrKpis_criticalRate, h, jsDiv, jsMul100, jsLt]
  · have hn : data.length ≠ 0 := fun hl => hd (List.length_eq_zero.mp hl)
    have hnq : (data.length : ℚ) ≠ 0 := Nat.cast_ne_zero.mpr hn
    have hnpos : (0 : ℚ) < (data.length : ℚ) := by
      exact_mod_cast Nat.pos_of_ne_zero hn
    have hn1 : ((data.length : ℚ) + 1) ≠ 0 := by linarith
    set c := (data.filter (fun alert => alert.Severity == "Critical")).length with hcdef
    have hcle : c ≤ data.length := List.length_filter_le _ _
    have hcq : (c : ℚ) ≤ (data.length : ℚ) := by exact_mod_cast hcle
    have hfilter : ((data ++ [r]).filter (fun alert => alert.Severity == "Critical")).length
        = c + 1 := by
      simp [List.filter_append, h, hcdef]
    have h1 : (c : ℚ) / (data.length : ℚ) ≤ ((c : ℚ) + 1) / ((data.length : ℚ) + 1) := by
      rw [div_le_div_iff₀ hnpos (by linarith)]
      nlinarith
    constructor
    · rw [calculateEdrKpis_criticalRate, calculateEdrKpis_criticalRate, hfilter]
      simp only [List.length_append, List.length_cons, List.length_nil]
      simp [jsDiv, hnq, hn1, jsMul100, jsLt]
      exact h1
    · intro _
      rw [calculateEdrKpis_criticalRate, calculateEdrKpis_criticalRate, hfilter]
      simp only [List.length_append, List.length_cons, List.length_nil]
      simp [jsDiv, hnq, hn1, jsMul100, jsLe]
      exact h1

/-- C8 witness: appending the Critical record to the one-record Low list,
with both comparisons evaluated. -/
theorem criticalRate_append_critical_monotone_witness :
    jsLt ((calculateEdrKpis ([alertLow] ++ [alertCritical1])).criticalRate)
        ((calculateEdrKpis [alertLow]).criticalRate) = false ∧
    jsLe ((calculateEdrKpis [alertLow]).criticalRate)
        ((calculateEdrKpis ([alertLow] ++ [alertCritical1])).criticalRate) = true :=
  ⟨(criticalRate_append_critical_monotone [alertLow] alertCritical1 rfl).1,
   (criticalRate_append_critical_monotone [alertLow] alertCritical1 rfl).2
     (List.cons_ne_nil _ _)⟩

/-! ### C2 -/

/-- C2 (amended): the on-time-patch rate (`patchesInTimeRate` in the code)
is 100 · onTimeCount / subsetSize over the resolved-with-both-dates subset,
0 when the subset is empty — where a record counts as on time when its
recommended timeframe is JS-falsy (absent/null, or the number 0, both of
which `|| Infinity` turns into an unbounded deadline) or its elapsed days
are at most the timeframe. -/
theorem patchesInTimeRate_formula (data : List VulnDataType) :
    (calculateVulnKpis data).patchesInTimeRate
      = (if (resolvedWithDates data).length = 0 then JSNum.num 0
         else JSNum.num (100 * (((resolvedWithDates data).filter (fun vuln =>
             match vuln.RecommendedTimeframe with
             | none => true
             | some t => if t = 0 then true else decide (daysDiff vuln ≤ t))).length : ℚ)
           / ((resolvedWithDates data).length : ℚ))) := by
  rw [calculateVulnKpis_patchesInTimeRate]
  simp only [jsLe_timeframeOrInf]
  rw [foldl_count_eq_filter_length]
  by_cases h : (resolvedWithDates data).length = 0
  · simp [h]
  · have hq : ((resolvedWithDates data).length : ℚ) ≠ 0 := Nat.cast_ne_zero.mpr h
    simp [h, Nat.pos_of_ne_zero h]
    ring

/-- Claim-side on-time-patch rate, written from the claim's words for C2:
a record is on time when its elapsed days are at most the recommended
timeframe, and only an absent/null timeframe is unbounded (a present
timeframe of 0 days still bounds the elapsed days). -/
def claimOnTimePatchRate (data : List VulnDataType) : ℚ :=
  if (resolvedWithDates data).length = 0 then 0
  else 100 * (((resolvedWithDates data).filter (fun vuln =>
      match vuln.RecommendedTimeframe with
      | none => true
      | some t => decide (daysDiff vuln ≤ t))).length : ℚ)
    / ((resolvedWithDates data).length : ℚ)

/-- C2 counterexample: one resolved record patched after 5 days with a
recommended timeframe of 0 days.  The claim's formula scores it late
(rate 0), but the code's `|| Infinity` treats the 0 timeframe as falsy and
scores it on time (rate 100). -/
theorem onTimePatchRate_zero_timeframe_cex :
    claimOnTimePatchRate [vulnZeroTimeframe] = 0 ∧
    (calculateVulnKpis [vulnZeroTimeframe]).patchesInTimeRate = JSNum.num 100 := by
  have hd : daysDiff vulnZeroTimeframe = 5 := by
    simp [daysDiff, vulnZeroTimeframe]
    norm_num
  have hb : (decide ((5 : ℚ) ≤ (0 : ℚ))) = false := by
    rw [decide_eq_false_iff_not]
    norm_num
  have hs : vulnZeroTimeframe.Status = "Resolved" := rfl
  have hp : vulnZeroTimeframe.PatchAppliedDate = some 432000000 := rfl
  have hdet : vulnZeroTimeframe.DetectionDate = some 0 := rfl
  have ht : vulnZeroTimeframe.RecommendedTimeframe = some 0 := rfl
  constructor
  · simp [claimOnTimePatchRate, resolvedWithDates, List.filter, hs, hp, hdet, ht, hd, hb]
  · rw [calculateVulnKpis_patchesInTimeRate]
    simp [resolvedWithDates, vulnZeroTimeframe, List.filter, hd, timeframeOrInf, jsLe]

/-! ### C9 -/

/-- C9 (confirmed): when either fetch/parse step fails, the error is caught
at the top of `loadData`: the diagnostic log is appended to, the loading
flag becomes false, both summaries stay at their all-zero initialized
defaults, and the component renders the ordinary dashboard view (the
component has no error view), so no error message reaches the end user. -/
theorem loadData_failure_behavior
    (edrFetch : Except String (List EdrDataType))
    (vulnFetch : Except String (List VulnDataType))
    (h : (∃ e, edrFetch = .error e) ∨ (∃ e, vulnFetch = .error e)) :
    (loadData edrFetch vulnFetch initialState).loading = false ∧
    (loadData edrFetch vulnFetch initialState).edrKpis = initialEdrKpis ∧
    (loadData edrFetch vulnFetch initialState).vulnKpis = initialVulnKpis ∧
    (loadData edrFetch vulnFetch initialState).errorLog ≠ [] ∧
    render (loadData edrFetch vulnFetch initialState)
      = View.dashboard initialEdrKpis initialVulnKpis := by
  rcases h with ⟨e, he⟩ | ⟨e, he⟩
  · subst he
    simp [loadData, initialState, render]
  · cases edrFetch with
    | error e2 => simp [loadData, initialState, render]
    | ok l =>
      subst he
      simp [loadData, initialState, render]

/-- C9 witness: a failing EDR fetch alongside a successful vulnerability
fetch, evaluated on the initial state. -/
theorem loadData_failure_behavior_witness :
    (loadData (.error "network error") (.ok []) initialState).loading = false ∧
    (loadData (.error "network error") (.ok []) initialState).edrKpis = initialEdrKpis ∧
    (loadData (.error "network error") (.ok []) initialState).vulnKpis = initialVulnKpis ∧
    (loadData (.error "network error") (.ok ([] : List VulnDataType)) initialState).errorLog ≠ [] ∧
    render (loadData (.error "network error") (.ok []) initialState)
      = View.dashboard initialEdrKpis initialVulnKpis :=
  loadData_failure_behavior (.error "network error") (.ok [])
    (Or.inl ⟨"network error", rfl⟩)
